import Mathlib

/-!
Shallow embedding of the NSA agricultural data-fusion core.

Sources embedded here:
* `src/services/data-fusion-engine/fusion_engine.py` (class
  AgriculturalDataFusionEngine: the USMI / AWLI / PAOI index computations
  and their helpers, the quality assessment, the alert generation);
* `src/services/data-fusion-engine/models.py` (the pydantic result models
  and AWLI.get_confidence);
* `src/services/nasa-data-ingest/nasa_manager.py` (bulk_data_fetch and the
  _fetch_dataset retry loop).

Conventions: Python floats are idealised as rationals (the fusion
arithmetic only adds, multiplies and divides literals); a Python dict of
named numeric readings plus an optional quality flag becomes `RawRecord`;
the raw-data map `Dict[str, Any]` becomes an association list of present
datasets. Leading underscores of Python helper names are dropped. The
process-global `numpy.random` generator that `_extract_wind_data` and
`_mock_aerosol_data` read is passed explicitly as an `Rng` value holding
the draws those two helpers would obtain; the USMI and AWLI computations
receive it too (every coroutine of the engine could read the global
generator) but their source never draws from it.
-/

namespace NSA

/-- One dataset's record: the named numeric fields of the Python dict plus
its optional `quality_flag` entry. -/
structure RawRecord where
  nums : List (String × ℚ)
  qualityFlag : Option String
  deriving DecidableEq

/-- Python `data.get(key, default)` on a numeric field of a record. -/
def RawRecord.getNum (r : RawRecord) (k : String) (d : ℚ) : ℚ :=
  (r.nums.lookup k).getD d

/-- The empty dict `{}`. -/
def RawRecord.empty : RawRecord := ⟨[], none⟩

/-- The raw-data map `raw_data : Dict[str, Any]`: the datasets present,
keyed by dataset id. An absent dataset is simply a missing key. -/
abbrev RawMap := List (String × RawRecord)

/-- Python `raw_data.get(dataset, {})`. -/
def rawGet (raw_data : RawMap) (dataset : String) : RawRecord :=
  (raw_data.lookup dataset).getD RawRecord.empty

/-- Python `str.lower()`, as a per-character lowercase map. -/
def lowercase (s : String) : String := ⟨s.data.map Char.toLower⟩

/-- Python exceptions the embedded code can raise. -/
inductive PyErr where
  | attributeError (name : String)
  | nameError (name : String)
  deriving DecidableEq

/-- The values returned by the `np.random.uniform` draws that one PAOI
computation performs: `_extract_wind_data` draws `uniform(2, 8)` (speed)
and `uniform(0, 360)` (direction); `_mock_aerosol_data` draws
`uniform(0.1, 0.5)` (aod_550) and `uniform(0.05, 0.3)` (aod_865). -/
structure Rng where
  wind_speed : ℚ
  wind_direction : ℚ
  aod_550 : ℚ
  aod_865 : ℚ
  deriving DecidableEq

/-- The draws lie inside the half-open ranges `np.random.uniform` samples
from (fusion_engine.py lines 676-677 and 732-733). -/
def Rng.inRange (r : Rng) : Prop :=
  2 ≤ r.wind_speed ∧ r.wind_speed ≤ 8 ∧ 0 ≤ r.wind_direction ∧ r.wind_direction ≤ 360 ∧
    1/10 ≤ r.aod_550 ∧ r.aod_550 ≤ 1/2 ∧ 1/20 ≤ r.aod_865 ∧ r.aod_865 ≤ 3/10

instance (r : Rng) : Decidable r.inRange := by
  unfold Rng.inRange; infer_instance

/-! ### fusion_engine.py helper functions (lines 381-526) -/

/-- Embeds `_process_smap_surface` (line 382). -/
def process_smap_surface (data : RawRecord) : ℚ :=
  data.getNum "surface_moisture" (25/100)

/-- Embeds `_process_smap_root_zone` (line 386). -/
def process_smap_root_zone (data : RawRecord) : ℚ :=
  data.getNum "root_zone_moisture" (30/100)

/-- Result shape of `_process_gpm_precipitation` (line 390). -/
structure PrecipData where
  rate : ℚ
  total : ℚ
  probability : ℚ
  deriving DecidableEq

/-- Embeds `_process_gpm_precipitation` (lines 390-396). -/
def process_gpm_precipitation (data : RawRecord) : PrecipData :=
  { rate := data.getNum "precipitation_rate" 2
    total := data.getNum "precipitation_cal" 20
    probability := data.getNum "probability_of_precipitation" (3/10) }

/-- Result shape of `_process_modis_lst` (line 398). -/
structure LstData where
  day : ℚ
  night : ℚ
  average : ℚ
  deriving DecidableEq

/-- Embeds `_process_modis_lst` (lines 398-404). -/
def process_modis_lst (data : RawRecord) : LstData :=
  { day := data.getNum "day_lst" 30
    night := data.getNum "night_lst" 15
    average := (data.getNum "day_lst" 30 + data.getNum "night_lst" 15) / 2 }

/-- Result shape of `_process_ecostress_et` (line 406). -/
structure EtData where
  actual : ℚ
  potential : ℚ
  deficit : ℚ
  deriving DecidableEq

/-- Embeds `_process_ecostress_et` (lines 406-412). -/
def process_ecostress_et (data : RawRecord) : EtData :=
  { actual := data.getNum "et_actual" 5
    potential := data.getNum "et_potential" 8
    deficit := max 0 (data.getNum "et_potential" 8 - data.getNum "et_actual" 5) }

/-- Embeds `_spatial_normalize` (lines 414-423): range normalization with
the fixed domain ranges, clamped to [0,1]; an unknown data type uses the
dict-lookup default range (0,1). -/
def spatial_normalize (value : ℚ) (data_type : String) : ℚ :=
  let range : ℚ × ℚ :=
    if data_type = "soil_moisture" then (0, 1/2)
    else if data_type = "precipitation" then (0, 50)
    else if data_type = "temperature" then (0, 50)
    else (0, 1)
  max 0 (min 1 ((value - range.1) / (range.2 - range.1)))

/-- Embeds `_temporal_normalize` (lines 425-431). -/
def temporal_normalize (data : PrecipData) (data_type : String) (days : ℚ) : ℚ :=
  if data_type = "precipitation" then max 0 (min 1 (data.total / (days * 5)))
  else 1/2

/-- Embeds `_calculate_temperature_stress` (lines 433-442). -/
def calculate_temperature_stress (temperature : LstData) : ℚ :=
  let avg_temp := temperature.average
  if 20 ≤ avg_temp ∧ avg_temp ≤ 30 then 1
  else if avg_temp < 20 then max 0 (avg_temp / 20)
  else max 0 (1 - (avg_temp - 30) / 20)

/-- Embeds `_calculate_et_deficit` (lines 444-451). -/
def calculate_et_deficit (et_data : EtData) (precipitation : PrecipData) : ℚ :=
  if precipitation.total > 0 then max 0 (min 1 (et_data.deficit / precipitation.total))
  else 1/2

/-- Embeds `_assess_data_quality` (lines 453-469): one weight per entry of
the raw map — a present `quality_flag` maps good to 1.0, marginal to 0.7
and anything else to 0.4; a record without the flag gets the default 0.8. -/
def assess_data_quality (raw_data : RawMap) : List (String × ℚ) :=
  raw_data.map (fun p =>
    match p.2.qualityFlag with
    | some quality_flag =>
        (p.1, if quality_flag = "good" then 1
              else if quality_flag = "marginal" then 7/10
              else 4/10)
    | none => (p.1, 8/10))

/-- Python `quality_weights.get(dataset, 1.0)` as used in the USMI fusion
sum (lines 220-224). -/
def weightsGet (weights : List (String × ℚ)) (dataset : String) : ℚ :=
  (weights.lookup dataset).getD 1

/-- Components dict built by `compute_unified_soil_moisture_index`
(lines 207-213), in insertion order. -/
structure UsmiComponents where
  surface_moisture : ℚ
  root_zone_moisture : ℚ
  precipitation_factor : ℚ
  temperature_stress : ℚ
  et_deficit : ℚ
  deriving DecidableEq

/-- Embeds `_propagate_uncertainty` (lines 471-479): the components
argument is ignored by the source body, which sums `(1 - weight) * 0.1`
over every entry of the weights dict and caps the sum at 0.5. -/
def propagate_uncertainty (_components : UsmiComponents) (weights : List (String × ℚ)) : ℚ :=
  min (1/2) ((weights.map (fun p => (1 - p.2) * (1/10))).sum)

/-- Embeds `_generate_usmi_recommendations` (lines 481-506). -/
def generate_usmi_recommendations (usmi_value : ℚ) (_components : UsmiComponents) :
    List String :=
  if usmi_value < 3/10 then
    ["Critical soil moisture levels detected",
     "Immediate irrigation recommended",
     "Consider soil moisture monitoring system"]
  else if usmi_value < 1/2 then
    ["Below optimal soil moisture",
     "Schedule irrigation within 2-3 days",
     "Monitor soil conditions closely"]
  else if usmi_value > 8/10 then
    ["Excellent soil moisture conditions",
     "No irrigation needed",
     "Continue current management practices"]
  else
    ["Soil moisture within acceptable range"]

/-- Per-dataset entry produced by `_generate_quality_flags` (lines 508-526);
the non-dict branch is unreachable for a typed raw map. -/
structure QualityFlags where
  quality_flag : String
  data_completeness : ℚ
  temporal_coverage : String
  deriving DecidableEq

/-- Embeds `_generate_quality_flags` (lines 508-526): `1.0 if data else 0.0`
tests dict truthiness, i.e. whether the record is empty. -/
def generate_quality_flags (raw_data : RawMap) : List (String × QualityFlags) :=
  raw_data.map (fun p =>
    (p.1, { quality_flag := p.2.qualityFlag.getD "unknown"
            data_completeness :=
              if p.2.nums = [] ∧ p.2.qualityFlag = none then 0 else 1
            temporal_coverage := "complete" }))

/-! ### USMI (fusion_engine.py lines 193-240, models.py lines 39-58) -/

/-- Result model `USMI` of models.py (lines 39-45), with the components
dict as a structure. -/
structure USMI where
  value : ℚ
  confidence : ℚ
  components : UsmiComponents
  quality_flags : List (String × QualityFlags)
  recommendations : List String
  deriving DecidableEq

/-- The normalized components dict of
`compute_unified_soil_moisture_index` (lines 200-213). -/
def usmi_normalized_components (raw_data : RawMap) : UsmiComponents :=
  let smap_surface := process_smap_surface (rawGet raw_data "smap_l3")
  let smap_root := process_smap_root_zone (rawGet raw_data "smap_l4")
  let precipitation := process_gpm_precipitation (rawGet raw_data "gpm")
  let temperature := process_modis_lst (rawGet raw_data "modis_lst")
  let et_data := process_ecostress_et (rawGet raw_data "ecostress")
  { surface_moisture := spatial_normalize smap_surface "soil_moisture"
    root_zone_moisture := spatial_normalize smap_root "soil_moisture"
    precipitation_factor := temporal_normalize precipitation "precipitation" 7
    temperature_stress := calculate_temperature_stress temperature
    et_deficit := calculate_et_deficit et_data precipitation }

/-- The local `uncertainty` of line 228: `_propagate_uncertainty` applied
to the normalized components and the quality weights of the raw map. -/
def usmi_uncertainty (raw_data : RawMap) : ℚ :=
  propagate_uncertainty (usmi_normalized_components raw_data) (assess_data_quality raw_data)

/-- Embeds `compute_unified_soil_moisture_index` (lines 193-240). The
`Rng` argument is the process-global numpy generator, which this
computation never reads. -/
def compute_unified_soil_moisture_index (raw_data : RawMap) (_rng : Rng) : USMI :=
  let normalized_components := usmi_normalized_components raw_data
  let quality_weights := assess_data_quality raw_data
  let usmi_value :=
    normalized_components.surface_moisture * (35/100) * weightsGet quality_weights "smap_l3" +
    normalized_components.root_zone_moisture * (25/100) * weightsGet quality_weights "smap_l4" +
    normalized_components.precipitation_factor * (20/100) * weightsGet quality_weights "gpm" +
    normalized_components.temperature_stress * (15/100) * weightsGet quality_weights "modis_lst" +
    normalized_components.et_deficit * (5/100) * weightsGet quality_weights "ecostress"
  let uncertainty := propagate_uncertainty normalized_components quality_weights
  let confidence := max 0 (1 - uncertainty)
  { value := usmi_value
    confidence := confidence
    components := normalized_components
    quality_flags := generate_quality_flags raw_data
    recommendations := generate_usmi_recommendations usmi_value normalized_components }

/-! ### AWLI (fusion_engine.py lines 242-306 and 528-636, models.py lines 60-81) -/

/-- Crop record `CropData` of fusion_engine.py (lines 16-24). -/
structure CropData where
  name : String
  water_requirements : List (String × ℚ)
  optimal_temperature : ℚ × ℚ
  soil_moisture_optimal : ℚ × ℚ
  pest_susceptibility : List (String × ℚ)
  phenology_stages : List (String × ℚ)
  deriving DecidableEq

/-- The corn entry of `_initialize_crop_databases` (lines 55-62). -/
def corn_crop : CropData :=
  { name := "Corn"
    water_requirements :=
      [("germination", 5), ("vegetative", 8), ("reproductive", 12), ("maturity", 6)]
    optimal_temperature := (18, 27)
    soil_moisture_optimal := (3/10, 6/10)
    pest_susceptibility := [("corn_borer", 8/10), ("aphids", 6/10), ("rust", 4/10)]
    phenology_stages :=
      [("emergence", 10), ("vegetative", 45), ("reproductive", 85), ("maturity", 120)] }

/-- The wheat entry (lines 63-70). -/
def wheat_crop : CropData :=
  { name := "Wheat"
    water_requirements :=
      [("germination", 3), ("vegetative", 6), ("reproductive", 8), ("maturity", 4)]
    optimal_temperature := (15, 25)
    soil_moisture_optimal := (25/100, 1/2)
    pest_susceptibility := [("rust", 7/10), ("aphids", 1/2), ("weevils", 6/10)]
    phenology_stages :=
      [("emergence", 7), ("vegetative", 60), ("reproductive", 120), ("maturity", 150)] }

/-- The soybean entry (lines 71-78). -/
def soybean_crop : CropData :=
  { name := "Soybean"
    water_requirements :=
      [("germination", 4), ("vegetative", 7), ("reproductive", 10), ("maturity", 5)]
    optimal_temperature := (20, 30)
    soil_moisture_optimal := (3/10, 55/100)
    pest_susceptibility := [("aphids", 7/10), ("caterpillars", 6/10), ("rust", 1/2)]
    phenology_stages :=
      [("emergence", 8), ("vegetative", 35), ("reproductive", 75), ("maturity", 110)] }

/-- The rice entry (lines 79-86). -/
def rice_crop : CropData :=
  { name := "Rice"
    water_requirements :=
      [("germination", 8), ("vegetative", 12), ("reproductive", 15), ("maturity", 8)]
    optimal_temperature := (25, 35)
    soil_moisture_optimal := (4/10, 7/10)
    pest_susceptibility :=
      [("brown_plant_hopper", 8/10), ("rice_blast", 7/10), ("stem_borer", 6/10)]
    phenology_stages :=
      [("emergence", 12), ("vegetative", 50), ("reproductive", 90), ("maturity", 130)] }

/-- Embeds `_initialize_crop_databases` (lines 52-87). -/
def crop_databases : List (String × CropData) :=
  [("corn", corn_crop), ("wheat", wheat_crop), ("soybean", soybean_crop), ("rice", rice_crop)]

/-- Python `self.crop_databases.get(crop_type.lower(), self.crop_databases["corn"])`
(line 275): unknown crop names fall back to the corn entry. -/
def cropLookup (crop_type : String) : CropData :=
  (crop_databases.lookup (lowercase crop_type)).getD corn_crop

/-- Result shape of `_process_grace_groundwater` (line 529). -/
structure GraceData where
  anomaly : ℚ
  uncertainty : ℚ
  deriving DecidableEq

/-- Embeds `_process_grace_groundwater` (lines 529-534). -/
def process_grace_groundwater (data : RawRecord) : GraceData :=
  { anomaly := data.getNum "groundwater_anomaly" 0
    uncertainty := data.getNum "uncertainty" 2 }

/-- Result shape of `_process_gldas_soil_moisture` (line 536). -/
structure GldasData where
  surface : ℚ
  root_zone : ℚ
  deriving DecidableEq

/-- Embeds `_process_gldas_soil_moisture` (lines 536-541). -/
def process_gldas_soil_moisture (data : RawRecord) : GldasData :=
  { surface := data.getNum "surface_moisture" (25/100)
    root_zone := data.getNum "root_zone_moisture" (30/100) }

/-- Result shape of `_process_vegetation_indices` (line 543). -/
structure VegData where
  ndvi : ℚ
  evi : ℚ
  phenology_stage : String
  deriving DecidableEq

/-- Embeds `_process_vegetation_indices` (lines 543-549). -/
def process_vegetation_indices (data : RawRecord) : VegData :=
  { ndvi := data.getNum "ndvi" (1/2)
    evi := data.getNum "evi" (3/10)
    phenology_stage := "vegetative" }

/-- Embeds `_calculate_vegetation_water_stress` (lines 551-562). The second
argument is the raw `modis_lst` dict (line 258), read at key `average` with
default 25. -/
def calculate_vegetation_water_stress (ndvi_data : VegData) (lst_data : RawRecord) : ℚ :=
  let ndvi := ndvi_data.ndvi
  let lst := lst_data.getNum "average" 25
  if ndvi > 6/10 ∧ lst < 30 then 1
  else if ndvi < 4/10 ∨ lst > 35 then 0
  else (ndvi - 4/10) / (2/10)

/-- Embeds `_calculate_precipitation_anomaly` (lines 564-572); the
climatology argument is a (mean, std) pair. -/
def calculate_precipitation_anomaly (gpm_data : RawRecord) (climatology : ℚ × ℚ) : ℚ :=
  let current_precip := gpm_data.getNum "precipitation_cal" 20
  let historical_mean := climatology.1
  if historical_mean > 0 then
    max 0 (min 1 (((current_precip - historical_mean) / historical_mean + 1) / 2))
  else 1/2

/-- Embeds `_get_precipitation_climatology` (lines 574-576). -/
def get_precipitation_climatology : ℚ × ℚ := (25, 10)

/-- Embeds `_calculate_potential_et` (lines 578-582); reads the raw
`modis_lst` dict at key `average` with default 25 and ignores the gpm
argument. -/
def calculate_potential_et (lst_data : RawRecord) (_gpm_data : RawRecord) : ℚ :=
  max 0 (lst_data.getNum "average" 25 * (3/10))

/-- Embeds `_safe_divide` (lines 584-586). -/
def safe_divide (numerator denominator : ℚ) : ℚ :=
  if denominator ≠ 0 then numerator / denominator else 0

/-- Embeds `_analyze_surface_water` (lines 588-592). -/
def analyze_surface_water (landsat_data : RawRecord) : ℚ :=
  max 0 (min 1 (landsat_data.getNum "ndwi" (3/10)))

/-- Embeds `_get_crop_water_requirements` (lines 594-596). -/
def get_crop_water_requirements (crop_data : CropData) (stage : String) : ℚ :=
  (crop_data.water_requirements.lookup stage).getD 6

/-- Embeds `_get_crop_water_weights` (lines 598-606): the same fixed table
for every crop type. -/
def get_crop_water_weights (_crop_type : String) : List (String × ℚ) :=
  [("groundwater_anomaly", 30/100), ("precipitation_anomaly", 25/100),
   ("vegetation_water_stress", 20/100), ("et_ratio", 15/100),
   ("surface_water_availability", 10/100)]

/-- Embeds `_assess_water_requirement_status` (lines 608-615). -/
def assess_water_requirement_status (awli_value : ℚ) (_water_needs : ℚ) : String :=
  if awli_value ≥ 7/10 then "adequate"
  else if awli_value ≥ 4/10 then "moderate"
  else "critical"

/-- Embeds `_generate_irrigation_recommendations` (lines 617-636). -/
def generate_irrigation_recommendations (awli_value : ℚ) (crop_type : String) : List String :=
  if awli_value < 3/10 then
    ["Immediate irrigation required",
     "Apply 15-20mm water for " ++ crop_type,
     "Monitor soil moisture closely"]
  else if awli_value < 1/2 then
    ["Irrigation recommended within 2 days",
     "Apply 10-15mm water for " ++ crop_type,
     "Check weather forecast before irrigation"]
  else
    ["Water levels adequate, continue monitoring"]

/-- Components dict of `compute_agricultural_water_level_indicator`
(lines 281-287), in insertion order. -/
structure AwliComponents where
  groundwater_anomaly : ℚ
  precipitation_anomaly : ℚ
  vegetation_water_stress : ℚ
  et_ratio : ℚ
  surface_water_availability : ℚ
  deriving DecidableEq

/-- Result model `AWLI` of models.py (lines 60-66). -/
structure AWLI where
  value : ℚ
  crop_type : String
  water_requirement_status : String
  components : AwliComponents
  irrigation_recommendations : List String
  deriving DecidableEq

/-- The `et_ratio` intermediate of `compute_agricultural_water_level_indicator`
(lines 267-269): `_safe_divide(et_actual, potential_et)` with
`et_actual = raw_data.get("ecostress", ).get("et_actual", 5.0)`. -/
def awli_et_ratio (raw_data : RawMap) : ℚ :=
  safe_divide ((rawGet raw_data "ecostress").getNum "et_actual" 5)
    (calculate_potential_et (rawGet raw_data "modis_lst") (rawGet raw_data "gpm"))

/-- Embeds `compute_agricultural_water_level_indicator` (lines 242-306).
The statements up to line 279 run and bind the intermediates below; the
components dict at line 282 then calls `self._normalize_groundwater_anomaly`,
a method that is defined nowhere in the repository, so every invocation
raises `AttributeError` at that point and no AWLI value is ever returned.
The `Rng` argument is the process-global numpy generator, never read here. -/
def compute_agricultural_water_level_indicator (raw_data : RawMap) (crop_type : String)
    (_rng : Rng) : Except PyErr AWLI :=
  let grace_data := process_grace_groundwater (rawGet raw_data "grace")
  let gldas_data := process_gldas_soil_moisture (rawGet raw_data "smap_l4")
  let ndvi_data := process_vegetation_indices (rawGet raw_data "modis_vegetation")
  let water_stress_index := calculate_vegetation_water_stress ndvi_data (rawGet raw_data "modis_lst")
  let precipitation_anomaly :=
    calculate_precipitation_anomaly (rawGet raw_data "gpm") get_precipitation_climatology
  let et_ratio := awli_et_ratio raw_data
  let surface_water := analyze_surface_water (rawGet raw_data "landsat")
  let crop_data := cropLookup crop_type
  let crop_water_needs := get_crop_water_requirements crop_data ndvi_data.phenology_stage
  let crop_weights := get_crop_water_weights crop_type
  .error (.attributeError "_normalize_groundwater_anomaly")

/-! ### AWLI.get_confidence (models.py lines 1-4 and 68-72) -/

/-- The modules models.py imports from (lines 1-4): pydantic, typing,
datetime and enum. numpy is not among them, so the name `np` used at
lines 72 and 97 is unbound in that module. -/
def models_imports : List String := ["pydantic", "typing", "datetime", "enum"]

/-- Embeds `AWLI.get_confidence` (models.py lines 68-72). The engine's
components value is a five-entry dict, so the emptiness early-return of
lines 70-71 never fires; the body then evaluates
`min(1.0, np.std(list(self.components.values())) * 2)`, and the lookup of
the unbound name `np` (see `models_imports`) raises `NameError` before
any arithmetic happens. -/
def AWLI.get_confidence (_a : AWLI) : Except PyErr ℚ :=
  .error (.nameError "np")

/-! ### PAOI (fusion_engine.py lines 308-379 and 638-790, models.py lines 83-97) -/

/-- Embeds `_detect_vegetation_anomalies` (lines 639-650). -/
def detect_vegetation_anomalies (vegetation_data : RawRecord) : ℚ :=
  let ndvi := vegetation_data.getNum "ndvi" (1/2)
  let pixel_reliability := vegetation_data.getNum "pixel_reliability" 0
  if ndvi > 6/10 ∧ pixel_reliability = 0 then 1
  else if ndvi < 4/10 ∨ pixel_reliability > 1 then 0
  else ndvi

/-- Embeds `_calculate_humidity_proxy` (lines 652-658); both arguments are
raw dicts. -/
def calculate_humidity_proxy (gpm_data : RawRecord) (temperature_data : RawRecord) : ℚ :=
  let precip := gpm_data.getNum "precipitation_cal" 20
  let temp := temperature_data.getNum "average" 25
  min 1 (precip / (temp * 2))

/-- Embeds `_model_pest_favorable_conditions` (lines 660-671). -/
def model_pest_favorable_conditions (temperature : RawRecord) (humidity : ℚ)
    (pest : String) : ℚ :=
  let temp := temperature.getNum "average" 25
  let pest_optimal_temp : ℚ :=
    if pest = "corn_borer" then 25
    else if pest = "aphids" then 20
    else if pest = "rust" then 22
    else 25
  let temp_favorability := max 0 (1 - |temp - pest_optimal_temp| / 10)
  (temp_favorability + humidity) / 2

/-- Result shape of `_extract_wind_data` (line 673). -/
structure WindData where
  speed : ℚ
  direction : ℚ
  deriving DecidableEq

/-- Embeds `_extract_wind_data` (lines 673-678): ignores its gpm argument
and returns two fresh `np.random.uniform` draws. -/
def extract_wind_data (_gpm_data : RawRecord) (rng : Rng) : WindData :=
  { speed := rng.wind_speed, direction := rng.wind_direction }

/-- Result shape of `_get_precipitation_forecast` (line 680). -/
structure ForecastData where
  next_6h : ℚ
  next_24h : ℚ
  probability : ℚ
  deriving DecidableEq

/-- Embeds `_get_precipitation_forecast` (lines 680-686). -/
def get_precipitation_forecast (gpm_data : RawRecord) : ForecastData :=
  { next_6h := gpm_data.getNum "precipitation_rate" 2 * 6
    next_24h := gpm_data.getNum "precipitation_cal" 20
    probability := gpm_data.getNum "probability_of_precipitation" (3/10) }

/-- Embeds `_assess_application_weather_suitability` (lines 688-699). -/
def assess_application_weather_suitability (wind : WindData) (precip : ForecastData)
    (temp : RawRecord) : ℚ :=
  let wind_speed := wind.speed
  let precip_prob := precip.probability
  let temperature := temp.getNum "average" 25
  let wind_score := max 0 (1 - wind_speed / 10)
  let precip_score := 1 - precip_prob
  let temp_score := 1 - |temperature - 25| / 15
  (wind_score + precip_score + temp_score) / 3

/-- Embeds `_determine_phenology_stage` (lines 701-713). -/
def determine_phenology_stage (vegetation_data : RawRecord) (_crop_type : String) : String :=
  let ndvi := vegetation_data.getNum "ndvi" (1/2)
  if ndvi < 3/10 then "emergence"
  else if ndvi < 6/10 then "vegetative"
  else if ndvi < 8/10 then "reproductive"
  else "maturity"

/-- Embeds `_get_pesticide_timing_score` (lines 715-727): the
(stage, pest) table with default 0.6. -/
def get_pesticide_timing_score (stage : String) (pest : String) : ℚ :=
  if stage = "vegetative" ∧ pest = "corn_borer" then 9/10
  else if stage = "reproductive" ∧ pest = "corn_borer" then 7/10
  else if stage = "vegetative" ∧ pest = "aphids" then 8/10
  else if stage = "reproductive" ∧ pest = "aphids" then 6/10
  else if stage = "vegetative" ∧ pest = "rust" then 1/2
  else if stage = "reproductive" ∧ pest = "rust" then 9/10
  else 6/10

/-- Result shape of `_mock_aerosol_data` (line 729). -/
structure AerosolData where
  aod_550 : ℚ
  aod_865 : ℚ
  deriving DecidableEq

/-- Embeds `_mock_aerosol_data` (lines 729-734): two fresh
`np.random.uniform` draws. -/
def mock_aerosol_data (rng : Rng) : AerosolData :=
  { aod_550 := rng.aod_550, aod_865 := rng.aod_865 }

/-- Embeds `_calculate_spray_drift_risk` (lines 736-745). -/
def calculate_spray_drift_risk (wind : WindData) (aerosol : AerosolData) : ℚ :=
  let wind_speed := wind.speed
  let aod := aerosol.aod_550
  let wind_risk := min 1 (wind_speed / 8)
  let aerosol_risk := min 1 (aod / (4/10))
  (wind_risk + aerosol_risk) / 2

/-- Components dict of `compute_pesticide_application_optimization_index`
(lines 345-351), in insertion order; the entry named `spray_drift_risk`
holds `1.0 - spray_drift_risk` ("Invert for optimization", line 350). -/
structure PaoiComponents where
  vegetation_stress : ℚ
  pest_favorable_conditions : ℚ
  weather_suitability : ℚ
  phenology_timing : ℚ
  spray_drift_risk : ℚ
  deriving DecidableEq

/-- Python `list(components.values())` on the PAOI components dict, in
insertion order. -/
def PaoiComponents.values (c : PaoiComponents) : List ℚ :=
  [c.vegetation_stress, c.pest_favorable_conditions, c.weather_suitability,
   c.phenology_timing, c.spray_drift_risk]

/-- Result shape of `_calculate_optimal_application_window` (lines 747-757).
Python `max(0, int(24 * base_score))` truncates toward zero before the max;
for the values at stake this agrees with the floor, since `max 0` absorbs
every negative result either way. -/
structure ApplicationWindow where
  optimal_hours : ℤ
  next_optimal_time : String
  avoid_times : String
  confidence : ℚ
  deriving DecidableEq

/-- Embeds `_calculate_optimal_application_window` (lines 747-757):
`np.mean` over the five component values. -/
def calculate_optimal_application_window (components : PaoiComponents) : ApplicationWindow :=
  let base_score := components.values.sum / 5
  { optimal_hours := max 0 ⌊24 * base_score⌋
    next_optimal_time := "06:00-10:00"
    avoid_times := "14:00-18:00"
    confidence := base_score }

/-- Embeds `_assess_environmental_impact` (lines 759-765): reads the
components entry named `spray_drift_risk` (which holds the inverted risk,
line 350) and inverts it again. -/
def assess_environmental_impact (components : PaoiComponents) : ℚ :=
  let weather_suitability := components.weather_suitability
  let spray_drift_risk := 1 - components.spray_drift_risk
  (weather_suitability + spray_drift_risk) / 2

/-- Embeds `_generate_pesticide_recommendations` (lines 767-790). -/
def generate_pesticide_recommendations (paoi_value : ℚ) (_components : PaoiComponents) :
    List String :=
  if paoi_value > 7/10 then
    ["Optimal conditions for pesticide application",
     "Proceed with planned application",
     "Monitor weather conditions during application"]
  else if paoi_value > 4/10 then
    ["Moderate conditions for application",
     "Consider waiting for better conditions",
     "Use targeted application methods"]
  else
    ["Poor conditions for pesticide application",
     "Postpone application until conditions improve",
     "Consider alternative pest management strategies"]

/-- Result model `PAOI` of models.py (lines 83-91). -/
structure PAOI where
  value : ℚ
  crop_type : String
  target_pest : String
  application_window : ApplicationWindow
  components : PaoiComponents
  environmental_impact_score : ℚ
  recommendations : List String
  deriving DecidableEq

/-- Embeds `compute_pesticide_application_optimization_index`
(lines 308-379). The `Rng` argument carries the `np.random.uniform` draws
that `_extract_wind_data` (line 331) and `_mock_aerosol_data` (line 342)
perform during this invocation. -/
def compute_pesticide_application_optimization_index (raw_data : RawMap)
    (crop_type target_pest : String) (rng : Rng) : PAOI :=
  let vegetation_data := rawGet raw_data "modis_vegetation"
  let vegetation_stress := detect_vegetation_anomalies vegetation_data
  let temperature_data := rawGet raw_data "modis_lst"
  let humidity_proxy := calculate_humidity_proxy (rawGet raw_data "gpm") temperature_data
  let pest_conditions := model_pest_favorable_conditions temperature_data humidity_proxy target_pest
  let wind_data := extract_wind_data (rawGet raw_data "gpm") rng
  let precipitation_forecast := get_precipitation_forecast (rawGet raw_data "gpm")
  let application_weather :=
    assess_application_weather_suitability wind_data precipitation_forecast temperature_data
  let phenology_stage := determine_phenology_stage vegetation_data crop_type
  let phenology_score := get_pesticide_timing_score phenology_stage target_pest
  let aerosol_data := mock_aerosol_data rng
  let spray_drift_risk := calculate_spray_drift_risk wind_data aerosol_data
  let paoi_components : PaoiComponents :=
    { vegetation_stress := vegetation_stress
      pest_favorable_conditions := pest_conditions
      weather_suitability := application_weather
      phenology_timing := phenology_score
      spray_drift_risk := 1 - spray_drift_risk }
  let paoi_value :=
    paoi_components.vegetation_stress * (30/100) +
    paoi_components.pest_favorable_conditions * (25/100) +
    paoi_components.weather_suitability * (20/100) +
    paoi_components.phenology_timing * (15/100) +
    paoi_components.spray_drift_risk * (10/100)
  { value := paoi_value
    crop_type := crop_type
    target_pest := target_pest
    application_window := calculate_optimal_application_window paoi_components
    components := paoi_components
    environmental_impact_score := assess_environmental_impact paoi_components
    recommendations := generate_pesticide_recommendations paoi_value paoi_components }

/-! ### Alert generation (fusion_engine.py lines 810-821) -/

/-- Embeds `generate_alerts` (lines 810-821): a pure function of the three
index results. -/
def generate_alerts (usmi : USMI) (awli : AWLI) (paoi : PAOI) : List String :=
  (if usmi.value < 2/10 then ["CRITICAL: Extremely low soil moisture detected"] else []) ++
  (if awli.value < 2/10 then ["CRITICAL: Critical water shortage detected"] else []) ++
  (if paoi.value < 3/10 then ["WARNING: Poor conditions for pest management"] else [])

/-! ### Dataset acquisition (nasa_manager.py lines 108-174) -/

/-- The dataset ids `_fetch_dataset` dispatches on (lines 149-164), in
source order; any other id reaches the `raise ValueError` at line 166. -/
def known_datasets : List String :=
  ["smap_l3", "smap_l4", "modis_vegetation", "modis_lst",
   "gpm", "ecostress", "grace", "landsat"]

/-- Outcome of the try-body of one loop iteration of `_fetch_dataset`
(lines 148-166) for `dataset_id` at attempt number `attempt`: a known id
defers to the (possibly transiently failing) fetch — modelled by the
caller-supplied oracle, one outcome per attempt — while an unknown id
raises `ValueError` unconditionally. -/
def attempt_outcome (dataset_id : String) (oracle : Nat → Except String RawRecord)
    (attempt : Nat) : Except String RawRecord :=
  if dataset_id ∈ known_datasets then oracle attempt
  else .error ("Unknown dataset: " ++ dataset_id)

/-- The retry loop of `_fetch_dataset` (lines 146-174), iterating attempts
`attempt, attempt+1, …` with `remaining` iterations left
(`remaining = max_retries - attempt`). Returns the final outcome, the
number of attempts actually made, and the backoff delays slept in time
units (`await asyncio.sleep(2 ** attempt)`, line 172), in order. A failure
on the last remaining attempt re-raises without sleeping (lines 170-171);
the `remaining = 0` base case is the loop falling through to `return `
at line 174, unreachable from the entry point since the last attempt
re-raises. -/
def fetch_dataset_loop (outcome : Nat → Except String RawRecord) :
    Nat → Nat → Except String RawRecord × Nat × List ℕ
  | 0, _ => (.ok RawRecord.empty, 0, [])
  | remaining + 1, attempt =>
    match outcome attempt with
    | .ok r => (.ok r, 1, [])
    | .error e =>
      if remaining = 0 then (.error e, 1, [])
      else
        let rest := fetch_dataset_loop outcome remaining (attempt + 1)
        (rest.1, rest.2.1 + 1, 2 ^ attempt :: rest.2.2)

/-- Embeds `_fetch_dataset` (lines 138-174): `max_retries = 3`, attempts
numbered from 0. -/
def fetch_dataset (dataset_id : String) (oracle : Nat → Except String RawRecord) :
    Except String RawRecord × Nat × List ℕ :=
  fetch_dataset_loop (attempt_outcome dataset_id oracle) 3 0

/-- Embeds `bulk_data_fetch` (lines 108-136): one independent fetch per
requested id (`asyncio.gather` with `return_exceptions=True`); an
exception becomes `none` in that id's slot (`data_results[dataset] = None`,
line 132) and every other slot keeps its own result. -/
def bulk_data_fetch (datasets : List String)
    (oracle : String → Nat → Except String RawRecord) : List (String × Option RawRecord) :=
  datasets.map (fun dataset =>
    (dataset,
     match (fetch_dataset dataset (oracle dataset)).1 with
     | .ok r => some r
     | .error _ => none))

/-! ### Definitions following the words of the spec, for comparison -/

/-- Quality-weight tiers exactly as the spec states them (spec section 3):
good maps to 1.0, marginal to 0.7, any other flag value present to 0.4,
flag absent entirely to 0.8. -/
def spec_quality_weight (flag : Option String) : ℚ :=
  match flag with
  | some f => if f = "good" then 1 else if f = "marginal" then 7/10 else 4/10
  | none => 8/10

/-- Uncertainty formula as the spec words it, over a list of quality
weights: `min(0.5, sum of (1-weight)*0.1)`. -/
def spec_uncertainty_formula (weights : List ℚ) : ℚ :=
  min (1/2) ((weights.map (fun w => (1 - w) * (1/10))).sum)

/-- The five datasets whose quality weights enter the USMI weighted sum
(fusion_engine.py lines 220-224) — the "contributing datasets" of the
claims. -/
def usmi_contributing_datasets : List String :=
  ["smap_l3", "smap_l4", "gpm", "modis_lst", "ecostress"]

/-- Environmental impact score as the spec words it:
`average(weather_suitability, 1 - drift_risk)` with `drift_risk` the
actual spray-drift risk. -/
def spec_environmental_impact (weather_suitability drift_risk : ℚ) : ℚ :=
  (weather_suitability + (1 - drift_risk)) / 2

/-! ### Concrete inputs used by counterexamples and witnesses -/

/-- A mid-range state of the numpy generator (wind 5 m/s from north,
aod_550 = 0.3, aod_865 = 0.1). -/
def rng0 : Rng := ⟨5, 0, 3/10, 1/10⟩

/-- Calm-wind draws: wind speed 2 m/s (the low end of `uniform(2, 8)`). -/
def rngLow : Rng := ⟨2, 0, 1/10, 1/20⟩

/-- High-wind draws: wind speed 8 m/s, same aerosol draws as `rngLow`. -/
def rngHigh : Rng := ⟨8, 0, 1/10, 1/20⟩

/-- Draws giving maximal spray-drift risk: wind 8 m/s and aod_550 = 0.4. -/
def rngDrift : Rng := ⟨8, 0, 4/10, 1/10⟩

/-- Raw map whose ecostress record reads `et_actual = 8` (the top of the
mock generator's `uniform(0, 8)` domain, line 173) with modis_lst absent. -/
def c1_raw : RawMap := [("ecostress", ⟨[("et_actual", 8)], some "good"⟩)]

/-- Raw map covering all four quality tiers. -/
def c7_raw : RawMap :=
  [("smap_l3", ⟨[("surface_moisture", 1/4)], some "good"⟩),
   ("gpm", ⟨[("precipitation_cal", 20)], some "marginal"⟩),
   ("landsat", ⟨[("ndwi", 3/10)], some "cloudy"⟩),
   ("modis_vegetation", ⟨[("ndvi", 1/2)], none⟩)]

/-- Raw map in which every USMI-contributing dataset carries a good flag
(weight 1.0) while the non-contributing landsat record carries a bad one
(weight 0.4). -/
def c8_raw : RawMap :=
  [("smap_l3", ⟨[("surface_moisture", 1/4)], some "good"⟩),
   ("smap_l4", ⟨[("root_zone_moisture", 3/10)], some "good"⟩),
   ("gpm", ⟨[("precipitation_cal", 20)], some "good"⟩),
   ("modis_lst", ⟨[("day_lst", 30), ("night_lst", 15)], some "good"⟩),
   ("ecostress", ⟨[("et_actual", 5), ("et_potential", 8)], some "good"⟩),
   ("landsat", ⟨[("ndwi", 3/10)], some "bad"⟩)]

/-- Raw map where every present dataset carries a good flag. -/
def c8_good_raw : RawMap :=
  [("smap_l3", ⟨[("surface_moisture", 1/4)], some "good"⟩),
   ("gpm", ⟨[("precipitation_cal", 20)], some "good"⟩)]

/-- A record a successful fetch returns. -/
def c5_record : RawRecord := ⟨[("surface_moisture", 1/4)], some "good"⟩

/-- A second distinct record for sibling fetches. -/
def c5_record' : RawRecord := ⟨[("ndwi", 3/10)], some "good"⟩

/-- Fetch oracle for the acquisition scenarios: smap_l3 fails twice then
succeeds, gpm fails on every attempt, every other dataset succeeds at
once. -/
def c5_oracle : String → Nat → Except String RawRecord := fun dataset attempt =>
  if dataset = "smap_l3" then
    (if attempt < 2 then .error "transient failure" else .ok c5_record)
  else if dataset = "gpm" then .error "transient failure"
  else .ok c5_record'

/-- An AWLI instance with the five-entry components structure the engine
would build, for evaluating `AWLI.get_confidence`. -/
def c9_awli : AWLI :=
  { value := 1/2
    crop_type := "corn"
    water_requirement_status := "moderate"
    components := ⟨1/2, 1/2, 1/2, 1/2, 1/2⟩
    irrigation_recommendations := [] }

/-! ### Claims -/

/-- C1: the claim says every normalizer output — among them the AWLI
et_ratio safe-divide and the vegetation water-stress interpolation — lies
in [0,1], and that each fused index value is clamped after its weighted
sum. Evaluating the code at in-domain inputs refutes this: with
`et_actual = 8` (inside the mock generator's own `uniform(0, 8)` domain)
and modis_lst absent, the AWLI et_ratio intermediate of lines 267-269 is
`8 / 7.5 = 16/15 > 1`, and the water-stress interpolation of lines 551-562
returns `(0.7 - 0.4)/0.2 = 1.5 > 1` at ndvi = 0.7, lst = 32; no clamp
follows either value or the AWLI weighted sum. -/
theorem C1_normalizer_escapes_unit_interval :
    awli_et_ratio c1_raw = 16/15 ∧ 1 < awli_et_ratio c1_raw ∧
    calculate_vegetation_water_stress ⟨7/10, 3/10, "vegetative"⟩ ⟨[("average", 32)], none⟩ = 3/2 ∧
    (1 : ℚ) < 3/2 := by
  refine ⟨?_, ?_, ?_, by norm_num⟩ <;>
    simp +decide [awli_et_ratio, safe_divide, calculate_potential_et, rawGet, c1_raw,
      RawRecord.getNum, RawRecord.empty, List.lookup, calculate_vegetation_water_stress] <;>
    norm_num

/-- C2 counterexample: the claim says two invocations of each index
computation on a fixed raw map produce identical results because the
fusion math contains no randomness. PAOI refutes it: lines 673-678 and
729-734 draw fresh `np.random.uniform` values inside the computation, so
two invocations whose wind-speed draws are 2 and 8 (both inside
`uniform(2, 8)`) yield different PAOI values on the same raw map. -/
theorem C2_paoi_randomness_counterexample :
    (compute_pesticide_application_optimization_index [] "corn" "general" rngLow).value ≠
      (compute_pesticide_application_optimization_index [] "corn" "general" rngHigh).value := by
  simp +decide [compute_pesticide_application_optimization_index, detect_vegetation_anomalies,
    calculate_humidity_proxy, model_pest_favorable_conditions, extract_wind_data,
    get_precipitation_forecast, assess_application_weather_suitability,
    determine_phenology_stage, get_pesticide_timing_score, mock_aerosol_data,
    calculate_spray_drift_risk, rawGet, RawRecord.getNum, RawRecord.empty,
    List.lookup, rngLow, rngHigh]
  norm_num

/-- C2 amended: given an identical raw-data map, the USMI and AWLI
computations are deterministic — their source never reads the process
RNG — and the alert generation is a pure function of the index results;
PAOI is excluded because it draws wind and aerosol values from the RNG
(see the counterexample). -/
theorem C2_determinism_amended (raw_data : RawMap) (crop_type : String)
    (rng₁ rng₂ : Rng) (a : AWLI) (p : PAOI) :
    compute_unified_soil_moisture_index raw_data rng₁ =
        compute_unified_soil_moisture_index raw_data rng₂ ∧
      compute_agricultural_water_level_indicator raw_data crop_type rng₁ =
        compute_agricultural_water_level_indicator raw_data crop_type rng₂ ∧
      generate_alerts (compute_unified_soil_moisture_index raw_data rng₁) a p =
        generate_alerts (compute_unified_soil_moisture_index raw_data rng₂) a p :=
  ⟨rfl, rfl, rfl⟩

/-- C2 amended, instantiated at concrete inputs. -/
theorem C2_determinism_amended_witness :
    compute_unified_soil_moisture_index c8_raw rngLow =
        compute_unified_soil_moisture_index c8_raw rngHigh ∧
      compute_agricultural_water_level_indicator c8_raw "corn" rngLow =
        compute_agricultural_water_level_indicator c8_raw "corn" rngHigh ∧
      generate_alerts (compute_unified_soil_moisture_index c8_raw rngLow) c9_awli
          (compute_pesticide_application_optimization_index c8_raw "corn" "general" rng0) =
        generate_alerts (compute_unified_soil_moisture_index c8_raw rngHigh) c9_awli
          (compute_pesticide_application_optimization_index c8_raw "corn" "general" rng0) :=
  C2_determinism_amended c8_raw "corn" rngLow rngHigh c9_awli
    (compute_pesticide_application_optimization_index c8_raw "corn" "general" rng0)

/-- C3: the claim says the environmental impact score equals
`average(weather_suitability, 1 - drift_risk)`. The code disagrees: the
components entry named `spray_drift_risk` already holds `1 - drift_risk`
(line 350), and `_assess_environmental_impact` (lines 759-765) inverts it
again, so the code returns `average(weather_suitability, drift_risk)`.
At draws with wind 8 m/s and aod 0.4 the drift risk is exactly 1, the
code's score on the empty raw map is 49/60, while the claimed formula
gives 19/60. -/
theorem C3_environmental_impact_double_inversion :
    calculate_spray_drift_risk (extract_wind_data RawRecord.empty rngDrift)
        (mock_aerosol_data rngDrift) = 1 ∧
    (compute_pesticide_application_optimization_index [] "corn" "general"
        rngDrift).environmental_impact_score = 49/60 ∧
    spec_environmental_impact
        (compute_pesticide_application_optimization_index [] "corn" "general"
          rngDrift).components.weather_suitability 1 = 19/60 ∧
    (49/60 : ℚ) ≠ 19/60 := by
  refine ⟨?_, ?_, ?_, by norm_num⟩ <;>
    simp +decide [compute_pesticide_application_optimization_index, detect_vegetation_anomalies,
      calculate_humidity_proxy, model_pest_favorable_conditions, extract_wind_data,
      get_precipitation_forecast, assess_application_weather_suitability,
      determine_phenology_stage, get_pesticide_timing_score, mock_aerosol_data,
      calculate_spray_drift_risk, assess_environmental_impact, spec_environmental_impact,
      rawGet, RawRecord.getNum, RawRecord.empty, List.lookup, rngDrift] <;>
    norm_num

/-- C4: the claim says an AWLI computation with an unmapped crop type
completes without raising, using the corn water-requirement table. The
corn fallback itself is implemented (line 275, second and third conjunct),
but the computation never completes: for every raw map and every crop
type it raises AttributeError at line 282, where the undefined method
`_normalize_groundwater_anomaly` is called. -/
theorem C4_awli_raises_for_every_input :
    compute_agricultural_water_level_indicator [] "dragonfruit" rng0 =
        .error (.attributeError "_normalize_groundwater_anomaly") ∧
      crop_databases.lookup (lowercase "dragonfruit") = none ∧
      cropLookup "dragonfruit" = corn_crop :=
  ⟨rfl, rfl, rfl⟩

/-- C9: the claim says the reported AWLI confidence equals
`min(1, stdev(component values) * 2)`. models.py never imports numpy
(lines 1-4), so evaluating `np.std` at line 72 raises NameError on any
instance with a non-empty components map and no confidence is ever
reported. -/
theorem C9_awli_confidence_name_error :
    "numpy" ∉ models_imports ∧
      AWLI.get_confidence c9_awli = .error (.nameError "np") :=
  ⟨by decide, rfl⟩

/-- Helper: the retry loop never makes more attempts than the larger of
one and the number of iterations remaining. -/
theorem fetch_dataset_loop_attempts_le (outcome : Nat → Except String RawRecord) :
    ∀ remaining attempt, (fetch_dataset_loop outcome remaining attempt).2.1 ≤ max 1 remaining := by
  intro remaining
  induction remaining with
  | zero => intro attempt; simp [fetch_dataset_loop]
  | succ n ih =>
    intro attempt
    simp only [fetch_dataset_loop]
    cases h : outcome attempt with
    | ok r => simp
    | error e =>
      by_cases hn : n = 0
      · simp [hn]
      · have hb := ih (attempt + 1)
        simp only [hn, if_false, reduceIte]
        omega

/-- C5: for a known dataset, the acquirer makes at most 3 attempts with
backoff delays of `2^attempt` time units after every failure but the last;
a fetch that fails twice and then succeeds returns the successful record
after 3 attempts and delays [1, 2]; a fetch that fails on all attempts
leaves only its own slot absent in the bulk result, while sibling fetches
still complete and return their records. -/
theorem C5_retry_and_isolation (ds₁ ds₂ ds₃ : String)
    (o : String → Nat → Except String RawRecord) (e : String) (r₁ r₃ : RawRecord)
    (h₁ : ds₁ ∈ known_datasets) (h₂ : ds₂ ∈ known_datasets) (h₃ : ds₃ ∈ known_datasets)
    (h₁0 : o ds₁ 0 = .error e) (h₁1 : o ds₁ 1 = .error e) (h₁2 : o ds₁ 2 = .ok r₁)
    (h₂f : ∀ attempt, o ds₂ attempt = .error e)
    (h₃0 : o ds₃ 0 = .ok r₃) :
    fetch_dataset ds₁ (o ds₁) = (.ok r₁, 3, [1, 2]) ∧
    (∀ dataset oracle, (fetch_dataset dataset oracle).2.1 ≤ 3) ∧
    bulk_data_fetch [ds₁, ds₂, ds₃] o = [(ds₁, some r₁), (ds₂, none), (ds₃, some r₃)] := by
  have fd₁ : fetch_dataset ds₁ (o ds₁) = (.ok r₁, 3, [1, 2]) := by
    simp [fetch_dataset, fetch_dataset_loop, attempt_outcome, h₁, h₁0, h₁1, h₁2]
  have fd₂ : fetch_dataset ds₂ (o ds₂) = (.error e, 3, [1, 2]) := by
    simp [fetch_dataset, fetch_dataset_loop, attempt_outcome, h₂, h₂f]
  have fd₃ : fetch_dataset ds₃ (o ds₃) = (.ok r₃, 1, []) := by
    simp [fetch_dataset, fetch_dataset_loop, attempt_outcome, h₃, h₃0]
  refine ⟨fd₁, ?_, ?_⟩
  · intro dataset oracle
    have hb := fetch_dataset_loop_attempts_le (attempt_outcome dataset oracle) 3 0
    simp only [fetch_dataset]
    omega
  · simp [bulk_data_fetch, fd₁, fd₂, fd₃]

/-- C5, instantiated: smap_l3 fails twice then succeeds, gpm always fails,
landsat succeeds at once. -/
theorem C5_retry_and_isolation_witness :
    ("smap_l3" ∈ known_datasets ∧ "gpm" ∈ known_datasets ∧ "landsat" ∈ known_datasets) ∧
    (c5_oracle "smap_l3" 0 = .error "transient failure" ∧
     c5_oracle "smap_l3" 1 = .error "transient failure" ∧
     c5_oracle "smap_l3" 2 = .ok c5_record ∧
     (∀ attempt, c5_oracle "gpm" attempt = .error "transient failure") ∧
     c5_oracle "landsat" 0 = .ok c5_record') ∧
    (fetch_dataset "smap_l3" (c5_oracle "smap_l3") = (.ok c5_record, 3, [1, 2]) ∧
     (∀ dataset oracle, (fetch_dataset dataset oracle).2.1 ≤ 3) ∧
     bulk_data_fetch ["smap_l3", "gpm", "landsat"] c5_oracle =
       [("smap_l3", some c5_record), ("gpm", none), ("landsat", some c5_record')]) :=
  ⟨⟨by decide, by decide, by decide⟩,
   ⟨rfl, rfl, rfl, fun _ => rfl, rfl⟩,
   C5_retry_and_isolation "smap_l3" "gpm" "landsat" c5_oracle "transient failure"
     c5_record c5_record' (by decide) (by decide) (by decide) rfl rfl rfl (fun _ => rfl) rfl⟩

/-- C6 counterexample: the claim says an unknown dataset id fails with
exactly one attempt and no backoff delay. In the code the `ValueError`
raised at line 166 is caught by the same blanket handler as a transient
failure (line 168), so the unknown id "foo" is attempted 3 times and
backoff delays of 1 and 2 time units are slept. -/
theorem C6_unknown_dataset_counterexample :
    (fetch_dataset "foo" (fun _ => .ok c5_record)).2.1 = 3 ∧
    (fetch_dataset "foo" (fun _ => .ok c5_record)).2.2 = [1, 2] :=
  ⟨rfl, rfl⟩

/-- C6 amended: an unknown dataset id fails on every attempt, but is
retried like a transient failure: 3 attempts are made with backoff delays
of 1 and 2 time units; the slot is then returned absent, and sibling
datasets are unaffected. -/
theorem C6_unknown_dataset_retried (ds ds' : String)
    (o : String → Nat → Except String RawRecord) (r' : RawRecord)
    (h : ds ∉ known_datasets) (h' : ds' ∈ known_datasets) (h0 : o ds' 0 = .ok r') :
    fetch_dataset ds (o ds) = (.error ("Unknown dataset: " ++ ds), 3, [1, 2]) ∧
    bulk_data_fetch [ds, ds'] o = [(ds, none), (ds', some r')] := by
  have fd : fetch_dataset ds (o ds) = (.error ("Unknown dataset: " ++ ds), 3, [1, 2]) := by
    simp [fetch_dataset, fetch_dataset_loop, attempt_outcome, h]
  have fd' : fetch_dataset ds' (o ds') = (.ok r', 1, []) := by
    simp [fetch_dataset, fetch_dataset_loop, attempt_outcome, h', h0]
  exact ⟨fd, by simp [bulk_data_fetch, fd, fd']⟩

/-- C6 amended, instantiated at the unknown id "foo" with landsat as the
unaffected sibling. -/
theorem C6_unknown_dataset_retried_witness :
    ("foo" ∉ known_datasets ∧ "landsat" ∈ known_datasets ∧
      c5_oracle "landsat" 0 = .ok c5_record') ∧
    (fetch_dataset "foo" (c5_oracle "foo") = (.error ("Unknown dataset: " ++ "foo"), 3, [1, 2]) ∧
     bulk_data_fetch ["foo", "landsat"] c5_oracle =
       [("foo", none), ("landsat", some c5_record')]) :=
  ⟨⟨by decide, by decide, rfl⟩,
   C6_unknown_dataset_retried "foo" "landsat" c5_oracle c5_record'
     (by decide) (by decide) rfl⟩

/-- C7: the quality assessment gives each present dataset exactly one
weight by the tiers the spec states (good 1.0, marginal 0.7, any other
flag present 0.4, no flag 0.8), and every assigned weight lies in [0,1]. -/
theorem C7_quality_weights (raw_data : RawMap) :
    assess_data_quality raw_data =
      raw_data.map (fun p => (p.1, spec_quality_weight p.2.qualityFlag)) ∧
    ∀ q ∈ assess_data_quality raw_data, 0 ≤ q.2 ∧ q.2 ≤ 1 := by
  constructor
  · unfold assess_data_quality
    refine List.map_congr_left ?_
    intro p _
    cases hf : p.2.qualityFlag <;> simp [spec_quality_weight, hf]
  · intro q hq
    simp only [assess_data_quality, List.mem_map] at hq
    obtain ⟨p, hp, hpq⟩ := hq
    cases hf : p.2.qualityFlag with
    | none =>
      rw [hf] at hpq
      subst hpq
      norm_num
    | some f =>
      rw [hf] at hpq
      subst hpq
      dsimp only
      constructor <;> split_ifs <;> norm_num

/-- C7, instantiated at a raw map covering all four tiers. -/
theorem C7_quality_weights_witness :
    assess_data_quality c7_raw =
      c7_raw.map (fun p => (p.1, spec_quality_weight p.2.qualityFlag)) ∧
    ∀ q ∈ assess_data_quality c7_raw, 0 ≤ q.2 ∧ q.2 ≤ 1 :=
  C7_quality_weights c7_raw

/-- C8 counterexample: the claim says the USMI uncertainty sum ranges over
the contributing datasets, so that all-good contributors force
uncertainty 0 and confidence 1. On `c8_raw` every contributing dataset
has weight 1, and the claimed formula over the contributors gives 0 —
but the code sums over every dataset present in the raw map, so the bad
landsat flag (weight 0.4) pushes the uncertainty to 0.06 and the
confidence to 0.94. -/
theorem C8_uncertainty_counterexample :
    (∀ ds ∈ usmi_contributing_datasets, weightsGet (assess_data_quality c8_raw) ds = 1) ∧
    spec_uncertainty_formula
      (usmi_contributing_datasets.map (weightsGet (assess_data_quality c8_raw))) = 0 ∧
    usmi_uncertainty c8_raw = 3/50 ∧
    (compute_unified_soil_moisture_index c8_raw rng0).confidence = 47/50 ∧
    (3/50 : ℚ) ≠ 0 ∧ (47/50 : ℚ) ≠ 1 := by
  refine ⟨?_, ?_, ?_, ?_, by norm_num, by norm_num⟩
  · intro ds hds
    simp only [usmi_contributing_datasets, List.mem_cons, List.not_mem_nil, or_false] at hds
    rcases hds with rfl | rfl | rfl | rfl | rfl <;>
      simp +decide [weightsGet, assess_data_quality, c8_raw, List.lookup]
  · simp +decide [spec_uncertainty_formula, usmi_contributing_datasets, weightsGet,
      assess_data_quality, c8_raw, List.lookup]
  · simp +decide [usmi_uncertainty, propagate_uncertainty, assess_data_quality, c8_raw]
    norm_num
  · simp +decide [compute_unified_soil_moisture_index, propagate_uncertainty,
      assess_data_quality, c8_raw]
    norm_num

/-- C8 amended: the USMI uncertainty is `min(0.5, Σ (1-wᵢ)·0.1)` taken over
the quality weights of every dataset present in the raw map (contributing
or not); the confidence is exactly `1 - uncertainty` (the `max 0` guard of
line 229 never binds because the uncertainty is capped at 0.5); and when
every present dataset's weight is 1.0, the uncertainty is 0 and the
confidence is 1. -/
theorem C8_uncertainty_amended (raw_data : RawMap) (rng : Rng) :
    usmi_uncertainty raw_data =
      spec_uncertainty_formula ((assess_data_quality raw_data).map Prod.snd) ∧
    (compute_unified_soil_moisture_index raw_data rng).confidence =
      1 - usmi_uncertainty raw_data ∧
    ((∀ q ∈ assess_data_quality raw_data, q.2 = 1) →
      usmi_uncertainty raw_data = 0 ∧
        (compute_unified_soil_moisture_index raw_data rng).confidence = 1) := by
  have hle : usmi_uncertainty raw_data ≤ 1/2 := by
    simp only [usmi_uncertainty, propagate_uncertainty]
    exact min_le_left _ _
  have h1 : usmi_uncertainty raw_data =
      spec_uncertainty_formula ((assess_data_quality raw_data).map Prod.snd) := by
    simp only [usmi_uncertainty, propagate_uncertainty, spec_uncertainty_formula,
      List.map_map]
    rfl
  have h2 : (compute_unified_soil_moisture_index raw_data rng).confidence =
      1 - usmi_uncertainty raw_data := by
    show max 0 (1 - usmi_uncertainty raw_data) = 1 - usmi_uncertainty raw_data
    exact max_eq_right (by linarith)
  refine ⟨h1, h2, fun hall => ?_⟩
  have hz : usmi_uncertainty raw_data = 0 := by
    have hs : ((assess_data_quality raw_data).map (fun p => (1 - p.2) * (1/10))).sum = 0 := by
      apply List.sum_eq_zero
      intro x hx
      simp only [List.mem_map] at hx
      obtain ⟨p, hp, hxp⟩ := hx
      rw [hall p hp] at hxp
      rw [← hxp]
      ring
    show min (1/2)
        ((assess_data_quality raw_data).map (fun p => (1 - p.2) * (1/10))).sum = 0
    rw [hs]
    norm_num
  exact ⟨hz, by rw [h2, hz]; norm_num⟩

/-- C8 amended, instantiated at a raw map in which every present dataset
carries a good flag. -/
theorem C8_uncertainty_amended_witness :
    (∀ q ∈ assess_data_quality c8_good_raw, q.2 = 1) ∧
    (usmi_uncertainty c8_good_raw = 0 ∧
      (compute_unified_soil_moisture_index c8_good_raw rng0).confidence = 1) :=
  ⟨by decide, (C8_uncertainty_amended c8_good_raw rng0).2.2 (by decide)⟩

/-- C10: the propagated uncertainty is capped at 0.5 before the
confidence `max(0, 1 - uncertainty)` is taken, so the engine never
reports a USMI confidence below 0.5, whatever the raw map's quality
flags. -/
theorem C10_usmi_confidence_floor (raw_data : RawMap) (rng : Rng) :
    1/2 ≤ (compute_unified_soil_moisture_index raw_data rng).confidence := by
  have hle : usmi_uncertainty raw_data ≤ 1/2 := by
    simp only [usmi_uncertainty, propagate_uncertainty]
    exact min_le_left _ _
  show (1/2 : ℚ) ≤ max 0 (1 - usmi_uncertainty raw_data)
  exact le_max_of_le_right (by linarith)

/-- C10, instantiated at the all-bad-flag variant of the counterexample
raw map. -/
theorem C10_usmi_confidence_floor_witness :
    1/2 ≤ (compute_unified_soil_moisture_index c8_raw rng0).confidence :=
  C10_usmi_confidence_floor c8_raw rng0

end NSA
